import Mathlib

/-!
Shallow embedding of `src/main.py` (FastAPI + SQLAlchemy CRUD service over a
single SQLite table `products`).

Modelling conventions:
* A database state is the list of persisted rows of the `products` table, in
  storage scan order (`DB := List Product`).
* SQLite's `INTEGER PRIMARY KEY` auto-assignment picks one more than the
  largest existing rowid (`newId`).
* `price` is declared `Float` in the source; the service only stores and
  echoes prices (no arithmetic is ever performed on them), so any value type
  with decidable equality models them faithfully; we use `Rat`.
* Handlers that can raise `HTTPException` return `Except HTTPException α`
  paired with the post-state; the 404 raise happens before any mutation, so
  the error branch leaves the state unchanged, exactly as in the source.
-/

namespace ERP

/-- A persisted row of the `products` table (class `Product`, main.py:76-82).
The primary-key column is named `_id` in the source. -/
structure Product where
  _id : Int
  name : String
  description : String
  price : Rat
  quantity : Int
deriving Repr, DecidableEq

/-- Validated write-input shape (class `ProductInput`, main.py:85-90). -/
structure ProductInput where
  name : String
  description : String
  price : Rat
  quantity : Int
deriving Repr, DecidableEq

/-- The database state: rows of the `products` table in scan order. -/
abbrev DB := List Product

/-- `HTTPException(status_code=..., detail=...)` as raised in main.py. -/
structure HTTPException where
  status_code : Nat
  detail : String
deriving Repr, DecidableEq

/-- Largest id present in the table (0 when empty). -/
def maxId (db : DB) : Int :=
  db.foldl (fun m p => max m p._id) 0

/-- Id assigned by SQLite to a freshly inserted row: one more than the
largest existing rowid (1 on an empty table). -/
def newId (db : DB) : Int :=
  maxId db + 1

/-- `create_product` (main.py:102-110): build a row from the four input
fields, insert it, and return the stored record with its assigned id. -/
def create_product (product : ProductInput) (db : DB) : Product × DB :=
  let db_product : Product :=
    { _id := newId db, name := product.name, description := product.description,
      price := product.price, quantity := product.quantity }
  (db_product, db ++ [db_product])

/-- `get_products` (main.py:113-116): `session.query(Product).all()`. -/
def get_products (db : DB) : List Product :=
  db

/-- `session.query(Product).filter(Product._id == product_id).first()`. -/
def queryFirst (product_id : Int) (db : DB) : Option Product :=
  db.find? (fun p => p._id == product_id)

/-- `get_product` (main.py:119-124). -/
def get_product (product_id : Int) (db : DB) : Except HTTPException Product :=
  match queryFirst product_id db with
  | none => .error ⟨404, "Product not found"⟩
  | some product => .ok product

/-- Replace the first row whose `_id` matches (SQLAlchemy: mutating the ORM
object returned by `.first()` and committing). -/
def updateFirst (product_id : Int) (p' : Product) : DB → DB
  | [] => []
  | q :: qs => if q._id == product_id then p' :: qs else q :: updateFirst product_id p' qs

/-- `update_product` (main.py:127-139): 404 if no row matches, otherwise
overwrite the four mutable fields of the matched row and return it. -/
def update_product (product_id : Int) (product : ProductInput) (db : DB) :
    Except HTTPException Product × DB :=
  match queryFirst product_id db with
  | none => (.error ⟨404, "Product not found"⟩, db)
  | some db_product =>
      let p' : Product :=
        { db_product with name := product.name, description := product.description,
                          price := product.price, quantity := product.quantity }
      (.ok p', updateFirst product_id p' db)

/-- Remove the first row whose `_id` matches (`session.delete` of the ORM
object returned by `.first()`). -/
def removeFirst (product_id : Int) : DB → DB
  | [] => []
  | q :: qs => if q._id == product_id then qs else q :: removeFirst product_id qs

/-- `delete_product` (main.py:142-149): 404 if no row matches, otherwise
delete the matched row and return the success message. -/
def delete_product (product_id : Int) (db : DB) :
    Except HTTPException String × DB :=
  match queryFirst product_id db with
  | none => (.error ⟨404, "Product not found"⟩, db)
  | some _ => (.ok "Product deleted successfully", removeFirst product_id db)

/-! ## Request validation and routing layer

FastAPI resolves path parameters and the `as_form` dependency (main.py:49-73,
85-90, 103, 120, 128, 143) before a handler body runs: a path segment that
does not coerce to `int`, or a required form field that is absent or does not
coerce to its declared type, yields a 422 validation error naming the
offending parameter, and the handler never executes. -/

/-- A nonempty all-digit character sequence as a natural number. -/
def digits? (cs : List Char) : Option Nat :=
  if cs.isEmpty || ¬ cs.all Char.isDigit then none
  else some (cs.foldl (fun n c => 10 * n + (c.toNat - 48)) 0)

/-- Split a character sequence at every occurrence of `sep`. -/
def splitOnChar (sep : Char) : List Char → List (List Char)
  | [] => [[]]
  | c :: cs =>
      let r := splitOnChar sep cs
      if c = sep then [] :: r
      else (c :: r.headD []) :: r.tail

/-- An optional leading minus sign: the sign and the remaining characters. -/
def signSplit (s : String) : Int × List Char :=
  match s.data with
  | '-' :: rest => (-1, rest)
  | cs => (1, cs)

/-- Coercion of a string to `int` (used for the `product_id` path parameter
and the `quantity` form field): optional sign followed by digits. -/
def parseInt? (s : String) : Option Int :=
  (digits? (signSplit s).2).map (fun n => ((signSplit s).1 * n : Int))

/-- Coercion of a string to `float` (used for the `price` form field):
optional sign, then digits with at most one decimal point. -/
def parseFloat? (s : String) : Option Rat :=
  let sgn := (signSplit s).1
  match splitOnChar '.' (signSplit s).2 with
  | [w] => (digits? w).map (fun n => (sgn * n : Int))
  | [w, f] =>
      if w.isEmpty && f.isEmpty then none
      else if (w.isEmpty || (digits? w).isSome) && (f.isEmpty || (digits? f).isSome) then
        some (mkRat (sgn * ((digits? w).getD 0 * 10 ^ f.length + (digits? f).getD 0)) (10 ^ f.length))
      else none
  | _ => none

/-- A form-encoded request body: field name / raw value pairs. -/
abbrev Form := List (String × String)

/-- First value submitted under a field name, if any. -/
def lookupForm (form : Form) (key : String) : Option String :=
  (form.find? (fun kv => kv.1 == key)).map (fun kv => kv.2)

/-- The form fields of a `ProductInput` request that are absent or fail type
coercion; the validation error reported to the client names exactly these. -/
def productFormErrors (form : Form) : List String :=
  (if (lookupForm form "name").isSome then [] else ["name"]) ++
  (if (lookupForm form "description").isSome then [] else ["description"]) ++
  (if ((lookupForm form "price").bind parseFloat?).isSome then [] else ["price"]) ++
  (if ((lookupForm form "quantity").bind parseInt?).isSome then [] else ["quantity"])

/-- The `ProductInput.as_form` dependency (main.py:49-73 applied at 85-90):
bind each declared field from the form, or fail with the offending fields. -/
def ProductInput.as_form (form : Form) : Except (List String) ProductInput :=
  match lookupForm form "name", lookupForm form "description",
        (lookupForm form "price").bind parseFloat?,
        (lookupForm form "quantity").bind parseInt? with
  | some n, some d, some pr, some q => .ok ⟨n, d, pr, q⟩
  | _, _, _, _ => .error (productFormErrors form)

/-- Outcome of a routed request that did not succeed: a 422 validation
rejection naming the offending parameters, or a raised `HTTPException`. -/
inductive ApiError where
  | validationError (params : List String)
  | http (e : HTTPException)
deriving Repr, DecidableEq

/-- `POST /products/` as routed: form binding, then `create_product`. -/
def route_create_product (form : Form) (db : DB) : Except ApiError Product × DB :=
  match ProductInput.as_form form with
  | .error params => (.error (.validationError params), db)
  | .ok product =>
      let r := create_product product db
      (.ok r.1, r.2)

/-- `GET /products/{product_id}` as routed: path coercion, then `get_product`. -/
def route_get_product (product_id : String) (db : DB) : Except ApiError Product × DB :=
  match parseInt? product_id with
  | none => (.error (.validationError ["product_id"]), db)
  | some pid =>
      match get_product pid db with
      | .error e => (.error (.http e), db)
      | .ok p => (.ok p, db)

/-- `PUT /products/{product_id}` as routed: path coercion and form binding,
then `update_product`. -/
def route_update_product (product_id : String) (form : Form) (db : DB) :
    Except ApiError Product × DB :=
  match parseInt? product_id with
  | none => (.error (.validationError ["product_id"]), db)
  | some pid =>
      match ProductInput.as_form form with
      | .error params => (.error (.validationError params), db)
      | .ok product =>
          match update_product pid product db with
          | (.error e, db') => (.error (.http e), db')
          | (.ok p, db') => (.ok p, db')

/-- `DELETE /products/{product_id}` as routed. -/
def route_delete_product (product_id : String) (db : DB) :
    Except ApiError String × DB :=
  match parseInt? product_id with
  | none => (.error (.validationError ["product_id"]), db)
  | some pid =>
      match delete_product pid db with
      | (.error e, db') => (.error (.http e), db')
      | (.ok m, db') => (.ok m, db')

/-! ## Response serialization

Every success response of create, list, get-by-id and update is serialized
through `response_model=ProductOutput` (main.py:93-99, 102, 113, 119, 127).
Pydantic treats an underscore-prefixed annotated attribute as a private
attribute, not a model field, so `_id` is excluded from the model's fields
and hence from the serialized body. -/

/-- The annotated attributes of `ProductOutput`, in declaration order
(main.py:94-99). -/
def productOutputAnnotatedAttrs : List String :=
  ["_id", "name", "description", "price", "quantity"]

/-- Whether an annotated attribute name starts with an underscore. -/
def isPrivateAttr (n : String) : Bool :=
  match n.data with
  | '_' :: _ => true
  | _ => false

/-- Pydantic's rule: annotated attributes whose name starts with an
underscore are private attributes and are not model fields. -/
def pydanticModelFields (attrs : List String) : List String :=
  attrs.filter (fun n => !(isPrivateAttr n))

/-- A JSON scalar as it appears in a serialized product body. -/
inductive JsonValue where
  | str (v : String)
  | num (v : Rat)
  | int (v : Int)
deriving Repr, DecidableEq

/-- Value a `ProductOutput` field reads off a `Product` row (orm_mode). -/
def productAttrValue (p : Product) : String → Option JsonValue
  | "_id" => some (.int p._id)
  | "name" => some (.str p.name)
  | "description" => some (.str p.description)
  | "price" => some (.num p.price)
  | "quantity" => some (.int p.quantity)
  | _ => none

/-- Serialized body of a product response: one key per model field of
`ProductOutput`. -/
def serializeOutput (p : Product) : List (String × JsonValue) :=
  (pydanticModelFields productOutputAnnotatedAttrs).filterMap
    (fun k => (productAttrValue p k).map (fun v => (k, v)))

/-! ## Derived notions used by the stated properties -/

/-- The four submitted (mutable) field values carried by a stored row. -/
def fieldsOf (p : Product) : ProductInput :=
  ⟨p.name, p.description, p.price, p.quantity⟩

/-- A sequence of successful create operations, in order. -/
def createMany (inputs : List ProductInput) (db : DB) : DB :=
  inputs.foldl (fun d product => (create_product product d).2) db

/-- Primary-key uniqueness: no two persisted rows share an `_id`. -/
def uniqueIds (db : DB) : Prop :=
  (db.map (fun p => p._id)).Nodup

/-- Database states reachable from the empty table via the service's
mutating operations. -/
inductive Reachable : DB → Prop where
  | empty : Reachable []
  | create (product : ProductInput) {db : DB} :
      Reachable db → Reachable (create_product product db).2
  | update (product_id : Int) (product : ProductInput) {db : DB} :
      Reachable db → Reachable (update_product product_id product db).2
  | delete (product_id : Int) {db : DB} :
      Reachable db → Reachable (delete_product product_id db).2

/-! ## Helper lemmas -/

theorem le_foldlMax (db : DB) (a : Int) : a ≤ db.foldl (fun m q => max m q._id) a := by
  induction db generalizing a with
  | nil => simp
  | cons q qs ih => exact le_trans (le_max_left a q._id) (ih (max a q._id))

theorem id_le_foldlMax {p : Product} (db : DB) (hp : p ∈ db) :
    ∀ a : Int, p._id ≤ db.foldl (fun m q => max m q._id) a := by
  induction db with
  | nil => cases hp
  | cons q qs ih =>
    intro a
    rw [List.foldl_cons]
    rcases List.mem_cons.mp hp with h | h
    · subst h
      exact le_trans (le_max_right a p._id) (le_foldlMax qs (max a p._id))
    · exact ih h (max a q._id)

theorem id_le_maxId {p : Product} {db : DB} (hp : p ∈ db) : p._id ≤ maxId db :=
  id_le_foldlMax db hp 0

theorem maxId_nonneg (db : DB) : 0 ≤ maxId db :=
  le_foldlMax db 0

theorem id_lt_newId {p : Product} {db : DB} (hp : p ∈ db) : p._id < newId db :=
  lt_of_le_of_lt (id_le_maxId hp) (by simp [newId])

theorem newId_pos (db : DB) : 0 < newId db :=
  lt_of_le_of_lt (maxId_nonneg db) (by simp [newId])

theorem queryFirst_eq_none {product_id : Int} {db : DB}
    (h : ∀ p ∈ db, p._id ≠ product_id) : queryFirst product_id db = none := by
  rw [queryFirst, List.find?_eq_none]
  intro p hp
  simpa using h p hp

theorem queryFirst_eq_some {product_id : Int} {db : DB} {r : Product}
    (h : queryFirst product_id db = some r) : r._id = product_id := by
  simpa using List.find?_some h

theorem queryFirst_isSome {product_id : Int} {db : DB} {p : Product}
    (hp : p ∈ db) (hid : p._id = product_id) :
    ∃ r, queryFirst product_id db = some r := by
  cases hfind : queryFirst product_id db with
  | some r => exact ⟨r, rfl⟩
  | none =>
      rw [queryFirst, List.find?_eq_none] at hfind
      exact absurd (by simp [hid]) (hfind p hp)

theorem removeFirst_sublist (product_id : Int) (db : DB) :
    (removeFirst product_id db).Sublist db := by
  induction db with
  | nil => simp [removeFirst]
  | cons q qs ih =>
      rw [removeFirst]
      by_cases h : (q._id == product_id) = true
      · simp [h]
      · simp only [h, if_false]
        exact ih.cons₂ q

theorem queryFirst_eq_none_of_not_mem {product_id : Int} {db : DB}
    (h : product_id ∉ db.map (fun p => p._id)) :
    queryFirst product_id db = none := by
  refine queryFirst_eq_none fun p hp heq => h ?_
  exact heq ▸ List.mem_map_of_mem (fun p => p._id) hp

theorem queryFirst_removeFirst {product_id : Int} {db : DB} (hu : uniqueIds db) :
    queryFirst product_id (removeFirst product_id db) = none := by
  induction db with
  | nil => simp [removeFirst, queryFirst]
  | cons q qs ih =>
      rw [removeFirst]
      rw [uniqueIds, List.map_cons, List.nodup_cons] at hu
      by_cases h : (q._id == product_id) = true
      · refine queryFirst_eq_none_of_not_mem ?_
        simpa [beq_iff_eq.mp h] using hu.1
      · rw [if_neg h, queryFirst,
            @List.find?_cons_of_neg Product (fun p => p._id == product_id) q
              (removeFirst product_id qs) h]
        exact ih hu.2

theorem map_id_updateFirst {product_id : Int} {p' : Product} {db : DB}
    (hid : p'._id = product_id) :
    (updateFirst product_id p' db).map (fun p => p._id) = db.map (fun p => p._id) := by
  induction db with
  | nil => simp [updateFirst]
  | cons q qs ih =>
      rw [updateFirst]
      by_cases h : (q._id == product_id) = true
      · simp [h, hid, beq_iff_eq.mp h]
      · simp [h, ih]

theorem queryFirst_updateFirst {product_id : Int} {p' : Product} {db : DB} {r : Product}
    (hr : queryFirst product_id db = some r) (hid : p'._id = product_id) :
    queryFirst product_id (updateFirst product_id p' db) = some p' := by
  induction db with
  | nil => simp [queryFirst] at hr
  | cons q qs ih =>
      rw [updateFirst]
      by_cases h : (q._id == product_id) = true
      · rw [if_pos h, queryFirst, List.find?_cons_of_pos _ (by simp [hid])]
      · rw [if_neg h, queryFirst,
            @List.find?_cons_of_neg Product (fun p => p._id == product_id) q
              (updateFirst product_id p' qs) h]
        rw [queryFirst,
            @List.find?_cons_of_neg Product (fun p => p._id == product_id) q qs h] at hr
        exact ih hr

theorem uniqueIds_create (product : ProductInput) {db : DB} (hu : uniqueIds db) :
    uniqueIds (create_product product db).2 := by
  rw [uniqueIds, create_product]
  simp only [List.map_append, List.map_cons, List.map_nil]
  rw [List.nodup_append]
  refine ⟨hu, List.nodup_singleton _, fun a ha hb => ?_⟩
  simp only [List.mem_singleton] at hb
  simp only [List.mem_map] at ha
  obtain ⟨p, hp, rfl⟩ := ha
  exact absurd hb (ne_of_lt (id_lt_newId hp))

theorem uniqueIds_update (product_id : Int) (product : ProductInput) {db : DB}
    (hu : uniqueIds db) : uniqueIds (update_product product_id product db).2 := by
  rw [update_product]
  cases hq : queryFirst product_id db with
  | none => exact hu
  | some r =>
      show uniqueIds (updateFirst product_id _ db)
      rw [uniqueIds,
          @map_id_updateFirst product_id { r with name := product.name, description := product.description, price := product.price, quantity := product.quantity } db (@queryFirst_eq_some product_id db r hq)]
      exact hu

theorem uniqueIds_delete (product_id : Int) {db : DB} (hu : uniqueIds db) :
    uniqueIds (delete_product product_id db).2 := by
  rw [delete_product]
  cases hq : queryFirst product_id db with
  | none => exact hu
  | some r =>
      show uniqueIds (removeFirst product_id db)
      exact ((removeFirst_sublist product_id db).map _).nodup hu

theorem uniqueIds_of_reachable {db : DB} (h : Reachable db) : uniqueIds db := by
  induction h with
  | empty => simp [uniqueIds]
  | create product _ ih => exact uniqueIds_create product ih
  | update product_id product _ ih => exact uniqueIds_update product_id product ih
  | delete product_id _ ih => exact uniqueIds_delete product_id ih

theorem as_form_error {form : Form} (h : productFormErrors form ≠ []) :
    ProductInput.as_form form = .error (productFormErrors form) := by
  rw [ProductInput.as_form]
  cases h1 : lookupForm form "name" with
  | none => rfl
  | some n =>
    cases h2 : lookupForm form "description" with
    | none => rfl
    | some d =>
      cases h3 : (lookupForm form "price").bind parseFloat? with
      | none => rfl
      | some pr =>
        cases h4 : (lookupForm form "quantity").bind parseInt? with
        | none => rfl
        | some q => exact absurd (by simp [productFormErrors, h1, h2, h3, h4]) h

/-! ## Claim theorems -/

/-- C1: for every well-typed input and every database state, `create_product`
returns a record carrying the four submitted field values plus a newly
assigned positive (hence non-null) id, and a subsequent `get_product` on that
id returns the identical record. -/
theorem create_then_get_returns_submitted (product : ProductInput) (db : DB) :
    (create_product product db).1.name = product.name ∧
    (create_product product db).1.description = product.description ∧
    (create_product product db).1.price = product.price ∧
    (create_product product db).1.quantity = product.quantity ∧
    0 < (create_product product db).1._id ∧
    get_product (create_product product db).1._id (create_product product db).2 =
      .ok (create_product product db).1 := by
  refine ⟨rfl, rfl, rfl, rfl, newId_pos db, ?_⟩
  have hnone : db.find? (fun p => p._id == newId db) = none := by
    rw [List.find?_eq_none]
    intro p hp
    simpa using ne_of_lt (id_lt_newId hp)
  show get_product (newId db) (db ++ [(create_product product db).1]) = _
  rw [get_product, queryFirst, List.find?_append, hnone, Option.none_or]
  simp [create_product, List.find?]

/-- C3: `get_product` on an id with no matching row returns the 404 response
with detail exactly "Product not found". -/
theorem get_product_not_found {product_id : Int} {db : DB}
    (h : ∀ p ∈ db, p._id ≠ product_id) :
    get_product product_id db = .error ⟨404, "Product not found"⟩ := by
  rw [get_product, queryFirst_eq_none h]

/-- Witness for C3: id 999999 on the empty table. -/
theorem get_product_not_found_witness :
    (∀ p ∈ ([] : DB), p._id ≠ 999999) ∧
      get_product 999999 [] = .error ⟨404, "Product not found"⟩ :=
  ⟨by simp, get_product_not_found (by simp)⟩

/-- C4: `update_product` on an id with no matching row returns the same
not-found response as `get_product` and leaves the table unchanged. -/
theorem update_product_not_found {product_id : Int} {db : DB} (product : ProductInput)
    (h : ∀ p ∈ db, p._id ≠ product_id) :
    update_product product_id product db = (.error ⟨404, "Product not found"⟩, db) ∧
    (update_product product_id product db).1 = get_product product_id db := by
  rw [update_product, get_product, queryFirst_eq_none h]
  exact ⟨rfl, rfl⟩

/-- Witness for C4: updating id 999999 on the empty table. -/
theorem update_product_not_found_witness :
    update_product 999999 ⟨"Widget", "A widget", 9.99, 5⟩ [] =
      (.error ⟨404, "Product not found"⟩, []) ∧
    (update_product 999999 ⟨"Widget", "A widget", 9.99, 5⟩ []).1 =
      get_product 999999 [] :=
  update_product_not_found ⟨"Widget", "A widget", 9.99, 5⟩ (by simp)

/-- C5: deleting an existing id (in a state with unique ids) succeeds with
the exact success message and removes the row: a subsequent get on that id
returns 404, and a second delete also returns 404 leaving the state as is. -/
theorem delete_product_removes_permanently {product_id : Int} {db : DB} {p : Product}
    (hu : uniqueIds db) (hp : p ∈ db) (hid : p._id = product_id) :
    (delete_product product_id db).1 = .ok "Product deleted successfully" ∧
    get_product product_id (delete_product product_id db).2 =
      .error ⟨404, "Product not found"⟩ ∧
    delete_product product_id (delete_product product_id db).2 =
      (.error ⟨404, "Product not found"⟩, (delete_product product_id db).2) := by
  obtain ⟨r, hr⟩ := queryFirst_isSome hp hid
  have h2 : queryFirst product_id (removeFirst product_id db) = none :=
    queryFirst_removeFirst hu
  refine ⟨?_, ?_, ?_⟩ <;> simp [delete_product, get_product, hr, h2]

/-- Witness for C5: deleting id 1 from a one-row table. -/
theorem delete_product_removes_permanently_witness :
    (delete_product 1 [{ _id := 1, name := "Widget", description := "A widget", price := 9.99, quantity := 5 }]).1 = .ok "Product deleted successfully" ∧
    get_product 1 (delete_product 1 [{ _id := 1, name := "Widget", description := "A widget", price := 9.99, quantity := 5 }]).2 = .error ⟨404, "Product not found"⟩ ∧
    delete_product 1 (delete_product 1 [{ _id := 1, name := "Widget", description := "A widget", price := 9.99, quantity := 5 }]).2 =
      (.error ⟨404, "Product not found"⟩, (delete_product 1 [{ _id := 1, name := "Widget", description := "A widget", price := 9.99, quantity := 5 }]).2) :=
  @delete_product_removes_permanently 1
    [{ _id := 1, name := "Widget", description := "A widget", price := 9.99, quantity := 5 }]
    { _id := 1, name := "Widget", description := "A widget", price := 9.99, quantity := 5 }
    (by simp [uniqueIds]) (by simp) rfl

/-- C6: updating an existing id overwrites exactly the four submitted fields:
the returned record carries the submitted values with the id unchanged, a
re-fetch returns that record, and the table's id column is untouched. -/
theorem update_then_get_overwrites_fields {product_id : Int} {db : DB} {p : Product}
    (product : ProductInput) (hp : p ∈ db) (hid : p._id = product_id) :
    ∃ p' : Product,
      update_product product_id product db = (.ok p', updateFirst product_id p' db) ∧
      p'._id = product_id ∧ p'.name = product.name ∧
      p'.description = product.description ∧ p'.price = product.price ∧
      p'.quantity = product.quantity ∧
      get_product product_id (update_product product_id product db).2 = .ok p' ∧
      (update_product product_id product db).2.map (fun q => q._id) =
        db.map (fun q => q._id) := by
  obtain ⟨r, hr⟩ := queryFirst_isSome hp hid
  have hid' : ({ r with name := product.name, description := product.description, price := product.price, quantity := product.quantity } : Product)._id = product_id :=
    @queryFirst_eq_some product_id db r hr
  have hupd : update_product product_id product db =
      (.ok { r with name := product.name, description := product.description, price := product.price, quantity := product.quantity },
        updateFirst product_id { r with name := product.name, description := product.description, price := product.price, quantity := product.quantity } db) := by
    rw [update_product, hr]
  have hsnd : (update_product product_id product db).2 =
      updateFirst product_id { r with name := product.name, description := product.description, price := product.price, quantity := product.quantity } db := by
    rw [hupd]
  refine ⟨_, hupd, hid', rfl, rfl, rfl, rfl, ?_, ?_⟩
  · rw [hsnd, get_product, queryFirst_updateFirst hr hid']
  · rw [hsnd]
    exact map_id_updateFirst hid'

/-- Witness for C6: setting quantity 5 to 0 on the only row of a table. -/
theorem update_then_get_overwrites_fields_witness :
    ∃ p' : Product,
      update_product 1 ⟨"Widget", "A widget", 9.99, 0⟩
          [{ _id := 1, name := "Widget", description := "A widget", price := 9.99, quantity := 5 }] =
        (.ok p', updateFirst 1 p' [{ _id := 1, name := "Widget", description := "A widget", price := 9.99, quantity := 5 }]) ∧
      p'._id = 1 ∧ p'.name = "Widget" ∧ p'.description = "A widget" ∧ p'.price = 9.99 ∧
      p'.quantity = 0 ∧
      get_product 1 (update_product 1 ⟨"Widget", "A widget", 9.99, 0⟩
          [{ _id := 1, name := "Widget", description := "A widget", price := 9.99, quantity := 5 }]).2 = .ok p' ∧
      (update_product 1 ⟨"Widget", "A widget", 9.99, 0⟩
          [{ _id := 1, name := "Widget", description := "A widget", price := 9.99, quantity := 5 }]).2.map (fun q => q._id) =
        ([{ _id := 1, name := "Widget", description := "A widget", price := 9.99, quantity := 5 }] : DB).map (fun q => q._id) :=
  @update_then_get_overwrites_fields 1
    [{ _id := 1, name := "Widget", description := "A widget", price := 9.99, quantity := 5 }]
    { _id := 1, name := "Widget", description := "A widget", price := 9.99, quantity := 5 }
    ⟨"Widget", "A widget", 9.99, 0⟩ (by simp) rfl

/-- C8: in every reachable database state all persisted ids are pairwise
distinct, while duplicate values of the four data fields across rows are
reachable (no other uniqueness constraint holds). -/
theorem reachable_ids_unique_no_other_constraints :
    (∀ db : DB, Reachable db → uniqueIds db) ∧
    (∃ (db : DB) (p q : Product), Reachable db ∧ p ∈ db ∧ q ∈ db ∧ p._id ≠ q._id ∧
      p.name = q.name ∧ p.description = q.description ∧ p.price = q.price ∧
      p.quantity = q.quantity) := by
  refine ⟨fun db h => uniqueIds_of_reachable h, ?_⟩
  refine ⟨(create_product ⟨"Widget", "A widget", 9.99, 5⟩
      (create_product ⟨"Widget", "A widget", 9.99, 5⟩ []).2).2,
    { _id := 1, name := "Widget", description := "A widget", price := 9.99, quantity := 5 },
    { _id := 2, name := "Widget", description := "A widget", price := 9.99, quantity := 5 },
    Reachable.create _ (Reachable.create _ Reachable.empty), ?_, ?_,
    by decide, rfl, rfl, rfl, rfl⟩
  · exact List.mem_cons_self _ _
  · exact List.mem_cons_of_mem _ (List.mem_cons_self _ _)

/-- Witness for C8: the id-uniqueness invariant evaluated on a concrete
reachable one-row state. -/
theorem reachable_ids_unique_witness :
    uniqueIds (create_product ⟨"Widget", "A widget", 9.99, 5⟩ []).2 :=
  reachable_ids_unique_no_other_constraints.1 _
    (Reachable.create _ Reachable.empty)

/-- C9: after any sequence of successful creates, listing returns the prior
rows plus exactly one new record per submitted input, each carrying the
submitted field values; listing an empty table returns the empty sequence. -/
theorem list_after_creates_appends (inputs : List ProductInput) (db : DB) :
    (∃ rows : List Product,
      get_products (createMany inputs db) = get_products db ++ rows ∧
      rows.map fieldsOf = inputs ∧
      (get_products (createMany inputs db)).length =
        (get_products db).length + inputs.length) ∧
    get_products ([] : DB) = [] := by
  refine ⟨?_, rfl⟩
  suffices h : ∀ db : DB, ∃ rows : List Product,
      createMany inputs db = db ++ rows ∧ rows.map fieldsOf = inputs by
    obtain ⟨rows, h1, h2⟩ := h db
    refine ⟨rows, h1, h2, ?_⟩
    rw [get_products, get_products, h1, List.length_append, ← h2, List.length_map]
  induction inputs with
  | nil => exact fun db => ⟨[], by simp [createMany], rfl⟩
  | cons i is ih =>
      intro db
      obtain ⟨rows, h1, h2⟩ := ih ((create_product i db).2)
      refine ⟨(create_product i db).1 :: rows, ?_, ?_⟩
      · calc createMany (i :: is) db
            = createMany is (create_product i db).2 := rfl
          _ = (create_product i db).2 ++ rows := h1
          _ = (db ++ [(create_product i db).1]) ++ rows := rfl
          _ = db ++ ((create_product i db).1 :: rows) := by simp
      · rw [List.map_cons, h2]
        rfl

/-- C2: the serialized body of every product response (create, list,
get-by-id and update all serialize through `ProductOutput`) carries exactly
the keys name, description, price and quantity; no key is an id under any
name, because the `_id` declaration is an underscore-prefixed private
attribute excluded from the model's fields. -/
theorem serialize_output_excludes_id (p : Product) :
    (serializeOutput p).map Prod.fst = ["name", "description", "price", "quantity"] ∧
    ∀ kv ∈ serializeOutput p, kv.1 ≠ "id" ∧ kv.1 ≠ "_id" := by
  have hser : serializeOutput p =
      [("name", .str p.name), ("description", .str p.description),
       ("price", .num p.price), ("quantity", .int p.quantity)] := rfl
  refine ⟨by rw [hser]; rfl, ?_⟩
  intro kv hkv
  rw [hser] at hkv
  simp only [List.mem_cons, List.not_mem_nil, or_false] at hkv
  rcases hkv with h | h | h | h <;> subst h <;> exact ⟨by simp, by simp⟩

/-- C7: a create or update request whose form is missing a required field or
carries one that fails type coercion is answered with the 422 validation
error naming the offending fields, and the database state is untouched. -/
theorem invalid_form_rejected_before_storage {form : Form}
    (h : productFormErrors form ≠ []) (product_id : String) (db : DB) :
    route_create_product form db =
      (.error (.validationError (productFormErrors form)), db) ∧
    (route_update_product product_id form db).2 = db ∧
    (∃ params, (route_update_product product_id form db).1 =
      .error (.validationError params)) := by
  have hf := as_form_error h
  refine ⟨by rw [route_create_product, hf], ?_, ?_⟩
  · rw [route_update_product]
    cases parseInt? product_id with
    | none => rfl
    | some pid => rw [hf]
  · rw [route_update_product]
    cases parseInt? product_id with
    | none => exact ⟨["product_id"], rfl⟩
    | some pid => exact ⟨productFormErrors form, by rw [hf]⟩

/-- Witness for C7: a form missing the required `price` field. -/
theorem invalid_form_rejected_before_storage_witness :
    productFormErrors [("name", "Widget"), ("description", "A widget"), ("quantity", "5")] ≠ [] ∧
    route_create_product [("name", "Widget"), ("description", "A widget"), ("quantity", "5")] [] =
      (.error (.validationError (productFormErrors [("name", "Widget"), ("description", "A widget"), ("quantity", "5")])), []) ∧
    (route_update_product "1" [("name", "Widget"), ("description", "A widget"), ("quantity", "5")] []).2 = [] ∧
    (∃ params, (route_update_product "1" [("name", "Widget"), ("description", "A widget"), ("quantity", "5")] []).1 =
      .error (.validationError params)) :=
  ⟨by decide, invalid_form_rejected_before_storage (by decide) "1" []⟩

/-- C10: a get, update or delete request whose path id segment does not
coerce to an integer is rejected with the 422 validation error naming the
path parameter — not with a 404 — and the state is unchanged; the handler
body (and hence any storage access) is never reached. -/
theorem non_integer_path_id_rejected {product_id : String}
    (h : parseInt? product_id = none) (form : Form) (db : DB) :
    route_get_product product_id db =
      (.error (.validationError ["product_id"]), db) ∧
    route_update_product product_id form db =
      (.error (.validationError ["product_id"]), db) ∧
    route_delete_product product_id db =
      (.error (.validationError ["product_id"]), db) := by
  refine ⟨?_, ?_, ?_⟩
  · rw [route_get_product, h]
  · rw [route_update_product, h]
  · rw [route_delete_product, h]

/-- Witness for C10: the non-numeric path segment "abc". -/
theorem non_integer_path_id_rejected_witness :
    parseInt? "abc" = none ∧
    route_get_product "abc" [] = (.error (.validationError ["product_id"]), []) ∧
    route_update_product "abc" [("name", "Widget")] [] =
      (.error (.validationError ["product_id"]), []) ∧
    route_delete_product "abc" [] = (.error (.validationError ["product_id"]), []) :=
  ⟨by decide, non_integer_path_id_rejected (by decide) [("name", "Widget")] []⟩

end ERP
